import Mathlib

/-!
Verification of the ADXL345 accelerometer acceptance-test script
(`src/ADXL345.py`).

The script configures an ADXL345 over I2C through a test-fixture board,
runs the sensor's built-in self test, then commands three actuator motion
profiles and checks the converted readings against fixed envelopes.

Modelling conventions:
* Python floats are modelled as exact rationals (`ℚ`); every constant in
  the source (`0.0039`, the threshold bands, the motion bounds) is a
  short decimal literal, and only order comparisons on them matter.
* Raw I2C bytes are `Fin 256` (Python `bytes` elements).
* Exceptions are modelled with `Except Err`; `Err` mirrors, constructor
  by constructor, the distinct `raise` sites of the source (plus the
  failures the external fixture can raise).
* The fixture board (`ZipTestBoard`) is external; it is modelled as an
  oracle (`Board`) saying which call succeeds and what each read
  returns.  Every fixture call is recorded in an event trace, which is
  what the temporal claims (actuator never moved, power-off exactly
  once, one log line) are stated over.
-/

namespace ADXL345

/-- One raw I2C byte. -/
abbrev Byte := Fin 256

/-- Constant `ADXL345_ADDRESS = 0x53`. -/
def ADXL345_ADDRESS : Nat := 0x53

/-- Register `REG_BW_RATE = 0x2C`. -/
def REG_BW_RATE : Nat := 0x2C

/-- Register `REG_POWER_CTL = 0x2D`. -/
def REG_POWER_CTL : Nat := 0x2D

/-- Register `REG_DATA_FORMAT = 0x31`. -/
def REG_DATA_FORMAT : Nat := 0x31

/-- Register `REG_DATAX0 = 0x32`. -/
def REG_DATAX0 : Nat := 0x32

/-- Value `BW_RATE_800HZ = 0x0D`. -/
def BW_RATE_800HZ : Nat := 0x0D

/-- Value `DATA_FORMAT_NORMAL = 0x0B` (self-test disabled). -/
def DATA_FORMAT_NORMAL : Nat := 0x0B

/-- Value `DATA_FORMAT_SELF_TEST = 0x8B` (normal plus the self-test bit). -/
def DATA_FORMAT_SELF_TEST : Nat := 0x8B

/-- Value `POWER_CTL_MEASURE = 0x08`. -/
def POWER_CTL_MEASURE : Nat := 0x08

/-- Scale `ACCEL_SCALE = 0.0039` g per LSB. -/
def ACCEL_SCALE : ℚ := 39 / 10000

/-- The three sensor axes, in the fixed order used by the source
(`['x', 'y', 'z']`, and Python dict insertion order). -/
inductive Axis : Type
  | x
  | y
  | z
  deriving DecidableEq, Repr

/-- Name of an axis as it appears in the source's messages. -/
def Axis.name : Axis → String
  | .x => "x"
  | .y => "y"
  | .z => "z"

/-- A converted acceleration sample, the dict
`{'x': …, 'y': …, 'z': …}` returned by `_read_acceleration`. -/
structure AxisSample : Type where
  x : ℚ
  y : ℚ
  z : ℚ
  deriving DecidableEq, Repr

/-- Dict lookup `sample[axis]`. -/
def AxisSample.get (s : AxisSample) : Axis → ℚ
  | .x => s.x
  | .y => s.y
  | .z => s.z

/-- The distinct failure conditions the run can raise.  The first four
mirror the script's own `raise ValueError(...)` sites and the
`struct.error` from a wrong-length unpack; the last three model the
failures the external fixture calls can raise. -/
inductive Err : Type
  /-- Raised by `struct.unpack` on a buffer whose length is not 6. -/
  | malformedResponse (length : Nat)
  /-- Raised by `_perform_self_test`: delta on `axis` outside `[lo, hi]`. -/
  | selfTestFailure (axis : Axis) (delta lo hi : ℚ)
  /-- Raised by `_check_slow_climb`: `axis` (y or z) outside its band. -/
  | slowClimbFailure (axis : Axis) (value : ℚ)
  /-- Raised by `_check_sharp_turn`: not (x > 5 and y > 5). -/
  | sharpTurnFailure (xval yval : ℚ)
  /-- Raised by `_check_quick_drop`: not (z < -8). -/
  | quickDropFailure (zval : ℚ)
  /-- Bus-level failure raised by the fixture's `i2c_cmd`/`i2c_setup`
  (`callNo` is the index of the failing call). -/
  | transportError (callNo : Nat)
  /-- Failure raised by the fixture's `actuator_move`. -/
  | actuatorError (config : String)
  /-- Failure raised by the fixture's power-rail switching. -/
  | powerError (rail : String)
  /-- Failure raised by the fixture's `i2c_setup`. -/
  | setupError
  deriving DecidableEq, Repr

/-! ## Register protocol decoding (`_read_acceleration`, lines 113–116) -/

/-- Little-endian unsigned 16-bit value of the byte pair `(lo, hi)`. -/
def toUInt16LE (lo hi : Byte) : Nat := lo.val + 256 * hi.val

/-- Signed 16-bit value of the little-endian byte pair `(lo, hi)`:
one field `h` of `struct.unpack('<hhh', …)`. -/
def toInt16LE (lo hi : Byte) : Int :=
  let u := toUInt16LE lo hi
  if u < 32768 then (u : Int) else (u : Int) - 65536

/-- Python `struct.unpack('<hhh', bytes(data))`: requires exactly 6 bytes,
otherwise raises (`none`); decodes the pairs (0,1), (2,3), (4,5). -/
def unpackHHH (data : List Byte) : Option (Int × Int × Int) :=
  if h : data.length = 6 then
    some (toInt16LE data[0] data[1], toInt16LE data[2] data[3],
          toInt16LE data[4] data[5])
  else
    none

/-- The pure part of `_read_acceleration`: decode a raw buffer and scale
each count by `ACCEL_SCALE`.  `Except` carries the `struct.error`
raised on a wrong-length buffer. -/
def decodeAcceleration (data : List Byte) : Except Err AxisSample :=
  match unpackHHH data with
  | some (x, y, z) =>
      .ok ⟨(x : ℚ) * ACCEL_SCALE, (y : ℚ) * ACCEL_SCALE, (z : ℚ) * ACCEL_SCALE⟩
  | none => .error (.malformedResponse data.length)

/-! ## Self-test evaluation (`_perform_self_test`, lines 104–110) -/

/-- Table `SELF_TEST_THRESHOLDS`, in the source's iteration order. -/
def SELF_TEST_THRESHOLDS : List (Axis × ℚ × ℚ) :=
  [(.x, -12/10, -9/10), (.y, -12/10, -9/10), (.z, -1, -7/10)]

/-- The threshold loop of `_perform_self_test`: for each axis in order,
raise on the first delta outside its band. -/
def checkThresholds (delta : Axis → ℚ) :
    List (Axis × ℚ × ℚ) → Except Err Unit
  | [] => .ok ()
  | (axis, lo, hi) :: rest =>
      if lo ≤ delta axis ∧ delta axis ≤ hi then
        checkThresholds delta rest
      else
        .error (.selfTestFailure axis (delta axis) lo hi)

/-- The per-axis delta `st_reading[axis] - baseline[axis]`. -/
def selfTestDelta (baseline st : AxisSample) (a : Axis) : ℚ :=
  st.get a - baseline.get a

/-- The delta evaluation of `_perform_self_test`: compute the deltas and
check them against `SELF_TEST_THRESHOLDS`. -/
def selfTestCheck (baseline st : AxisSample) : Except Err Unit :=
  checkThresholds (selfTestDelta baseline st) SELF_TEST_THRESHOLDS

/-! ## Motion acceptance checks (lines 125–140) -/

/-- Method `_check_slow_climb`: y in [-1, 1] (checked first), then z in [6, 8]. -/
def checkSlowClimb (accel : AxisSample) : Except Err Unit :=
  if ¬ (-1 ≤ accel.y ∧ accel.y ≤ 1) then
    .error (.slowClimbFailure .y accel.y)
  else if ¬ (6 ≤ accel.z ∧ accel.z ≤ 8) then
    .error (.slowClimbFailure .z accel.z)
  else
    .ok ()

/-- Method `_check_sharp_turn`: requires x > 5 and y > 5, reported together. -/
def checkSharpTurn (accel : AxisSample) : Except Err Unit :=
  if accel.x > 5 ∧ accel.y > 5 then
    .ok ()
  else
    .error (.sharpTurnFailure accel.x accel.y)

/-- Method `_check_quick_drop`: requires z < -8. -/
def checkQuickDrop (accel : AxisSample) : Except Err Unit :=
  if accel.z < -8 then
    .ok ()
  else
    .error (.quickDropFailure accel.z)

/-! ## The fixture board and the run's event trace

`ZipTestBoard` is external.  A `Board` is an oracle describing its
behaviour for one run: whether each call succeeds and what each read
returns.  Every fixture call the script makes is recorded as an
`Event`; the temporal claims are stated over the resulting trace. -/

/-- One call of the script into the fixture (or `print`). -/
inductive Event : Type
  | turnOnPS (rail : String)
  | i2cSetup (sda scl : String) (freq : Nat)
  /-- Call `i2c_cmd(addr, bytes)` used as a register write. -/
  | i2cWrite (addr : Nat) (bytes : List Nat)
  /-- Call `i2c_cmd(addr, bytes, resp_len=n)` used as a read. -/
  | i2cRead (addr : Nat) (bytes : List Nat) (respLen : Nat)
  | sleep (ms : Nat)
  | actuatorMove (config : String)
  /-- One `print` line on standard output. -/
  | log (line : String)
  | turnOffPS (rail : String)
  deriving DecidableEq, Repr

abbrev Trace := List Event

/-- Mutable state threaded through a run: how many write commands and
read commands were issued so far (indexing the oracle), and the trace
of events so far. -/
structure St : Type where
  writes : Nat
  reads : Nat
  trace : Trace
  deriving Repr

/-- The initial state of a run. -/
def St.init : St := ⟨0, 0, []⟩

/-- The oracle for the external `ZipTestBoard`: which calls succeed,
and the bytes each successive read returns (`none` = bus failure). -/
structure Board : Type where
  turnOnOk : Bool
  i2cSetupOk : Bool
  /-- Whether the n-th register-write `i2c_cmd` succeeds. -/
  writeOk : Nat → Bool
  /-- The n-th read `i2c_cmd`: `none` is a bus failure, `some data`
  the returned bytes. -/
  readData : Nat → Option (List Byte)
  actuatorOk : String → Bool
  turnOffOk : Bool

/-- A computation of the script: threads the state and can raise. -/
def M (α : Type) : Type := St → Except Err α × St

/-- Return. -/
def M.pure {α : Type} (a : α) : M α := fun s => (.ok a, s)

/-- Sequencing with exception propagation: a raised condition skips
everything after it. -/
def M.bind {α β : Type} (m : M α) (f : α → M β) : M β := fun s =>
  match m s with
  | (.ok a, s') => f a s'
  | (.error e, s') => (.error e, s')

/-- Lift a pure fallible computation (a `raise` site). -/
def M.lift {α : Type} (e : Except Err α) : M α := fun s => (e, s)

/-! ### Fixture call primitives -/

/-- Fixture call `board.turn_on_ps(rail)`. -/
def turnOnPS (b : Board) (rail : String) : M Unit := fun s =>
  ((if b.turnOnOk then .ok () else .error (.powerError rail)),
   { s with trace := s.trace ++ [.turnOnPS rail] })

/-- Fixture call `board.i2c_setup(sda, scl, freq)`. -/
def i2cSetup (b : Board) (sda scl : String) (freq : Nat) : M Unit := fun s =>
  ((if b.i2cSetupOk then .ok () else .error .setupError),
   { s with trace := s.trace ++ [.i2cSetup sda scl freq] })

/-- Fixture call `board.i2c_cmd(addr, bytes)` as a register write. -/
def i2cCmdWrite (b : Board) (addr : Nat) (bytes : List Nat) : M Unit := fun s =>
  ((if b.writeOk s.writes then .ok () else .error (.transportError s.writes)),
   { s with writes := s.writes + 1, trace := s.trace ++ [.i2cWrite addr bytes] })

/-- Fixture call `board.i2c_cmd(addr, bytes, resp_len=n)` as a read. -/
def i2cCmdRead (b : Board) (addr : Nat) (bytes : List Nat) (respLen : Nat) :
    M (List Byte) := fun s =>
  ((match b.readData s.reads with
    | some data => .ok data
    | none => .error (.transportError s.reads)),
   { s with reads := s.reads + 1, trace := s.trace ++ [.i2cRead addr bytes respLen] })

/-- Call `time.sleep` (records the settle delay, in ms). -/
def sleep (ms : Nat) : M Unit := fun s =>
  (.ok (), { s with trace := s.trace ++ [.sleep ms] })

/-- Fixture call `board.actuator_move(config)`. -/
def actuatorMove (b : Board) (config : String) : M Unit := fun s =>
  ((if b.actuatorOk config then .ok () else .error (.actuatorError config)),
   { s with trace := s.trace ++ [.actuatorMove config] })

/-- Fixture call `board.turn_off_ps(rail)`. -/
def turnOffPS (b : Board) (rail : String) : M Unit := fun s =>
  ((if b.turnOffOk then .ok () else .error (.powerError rail)),
   { s with trace := s.trace ++ [.turnOffPS rail] })

/-! ### The script's methods -/

/-- Method `_read_acceleration` (lines 113–116). -/
def readAcceleration (b : Board) : M AxisSample :=
  M.bind (i2cCmdRead b ADXL345_ADDRESS [REG_DATAX0] 6) fun data =>
  M.lift (decodeAcceleration data)

/-- Method `_configure_accelerometer` (lines 82–86). -/
def configureAccelerometer (b : Board) : M Unit :=
  M.bind (i2cCmdWrite b ADXL345_ADDRESS [REG_BW_RATE, BW_RATE_800HZ]) fun _ =>
  M.bind (i2cCmdWrite b ADXL345_ADDRESS [REG_DATA_FORMAT, DATA_FORMAT_NORMAL]) fun _ =>
  M.bind (i2cCmdWrite b ADXL345_ADDRESS [REG_POWER_CTL, POWER_CTL_MEASURE]) fun _ =>
  sleep 100

/-- Method `_perform_self_test` (lines 91–110): baseline read in normal mode,
stimulated read in self-test mode, restore normal mode, then the delta
threshold check. -/
def performSelfTest (b : Board) : M Unit :=
  M.bind (i2cCmdWrite b ADXL345_ADDRESS [REG_DATA_FORMAT, DATA_FORMAT_NORMAL]) fun _ =>
  M.bind (sleep 100) fun _ =>
  M.bind (readAcceleration b) fun baseline =>
  M.bind (i2cCmdWrite b ADXL345_ADDRESS [REG_DATA_FORMAT, DATA_FORMAT_SELF_TEST]) fun _ =>
  M.bind (sleep 100) fun _ =>
  M.bind (readAcceleration b) fun st_reading =>
  M.bind (i2cCmdWrite b ADXL345_ADDRESS [REG_DATA_FORMAT, DATA_FORMAT_NORMAL]) fun _ =>
  M.lift (selfTestCheck baseline st_reading)

/-- Method `_actuator_test` (lines 120–123): command the actuator, read, check. -/
def actuatorTest (b : Board) (config : String)
    (check : AxisSample → Except Err Unit) : M Unit :=
  M.bind (actuatorMove b config) fun _ =>
  M.bind (readAcceleration b) fun accel =>
  M.lift (check accel)

/-- The `try` block of `run_test` (lines 58–71), after the board is
constructed. -/
def runBody (b : Board) : M Unit :=
  M.bind (turnOnPS b "3V3") fun _ =>
  M.bind (i2cSetup b "MCU_DIO1" "MCU_DIO2" 400000) fun _ =>
  M.bind (configureAccelerometer b) fun _ =>
  M.bind (performSelfTest b) fun _ =>
  M.bind (actuatorTest b "slow_climb" checkSlowClimb) fun _ =>
  M.bind (actuatorTest b "sharp_turn" checkSharpTurn) fun _ =>
  actuatorTest b "quick_drop" checkQuickDrop

/-! ### Result logging and the full run -/

/-- Render of a rational in a message (stands in for Python's float
formatting; only which condition is described matters). -/
def ratStr (q : ℚ) : String := toString q.num ++ "/" ++ toString q.den

/-- Human-readable description of a condition, modelled on the
source's exception messages (the script records
`traceback.format_exc()`, whose essential content is this message). -/
def describe : Err → String
  | .malformedResponse n =>
      "unpack requires a buffer of 6 bytes, got " ++ toString n
  | .selfTestFailure a d lo hi =>
      "The self-test was failed on " ++ a.name ++ " axis: difference of " ++
        ratStr d ++ "g is not in [" ++ ratStr lo ++ ", " ++ ratStr hi ++ "]g"
  | .slowClimbFailure a v =>
      "Slow climb: " ++ a.name ++ "-axis " ++ ratStr v ++ "g out of band"
  | .sharpTurnFailure xv yv =>
      "Sharp turn: X " ++ ratStr xv ++ "g or Y " ++ ratStr yv ++ "g not > 5g"
  | .quickDropFailure zv =>
      "Quick drop: Z axis " ++ ratStr zv ++ "g not < -8g"
  | .transportError n => "I2C transport error on call " ++ toString n
  | .actuatorError c => "actuator failure during " ++ c
  | .powerError r => "power rail failure on " ++ r
  | .setupError => "I2C setup failure"

/-- The one output line of `_log_result` (lines 143–148).  `elapsed`
stands for the wall-clock `time.time() - start_time` rendering, which
is external to the model. -/
def logLine (passed : Bool) (reason : Option Err) (elapsed : String) : String :=
  if passed then
    "TEST PASSED in " ++ elapsed ++ " sec"
  else
    "TEST FAILED in " ++ elapsed ++ " sec due to " ++
      (match reason with
       | some e => describe e
       | none => "None")

/-- The outcome of one run: the `test_passed` / `failure_reason` fields
plus the full trace of fixture calls and printed lines. -/
structure RunResult : Type where
  testPassed : Bool
  failureReason : Option Err
  trace : Trace
  deriving Repr

/-- Method `run_test` (lines 55–80): run the body; on any raised condition
record it as the failure reason; in all cases (`finally`) print the one
result line and then power off the 3V3 rail, swallowing any condition
the power-off raises. -/
def runTest (b : Board) (elapsed : String) : RunResult :=
  let r := runBody b St.init
  let passed : Bool := match r.1 with
    | .ok _ => true
    | .error _ => false
  let reason : Option Err := match r.1 with
    | .ok _ => none
    | .error e => some e
  let s1 : St :=
    { r.2 with trace := r.2.trace ++ [.log (logLine passed reason elapsed)] }
  let s2 : St := (turnOffPS b "3V3" s1).2
  ⟨passed, reason, s2.trace⟩

/-! ## Observation helpers used by the claim statements -/

/-- Whether a condition is a self-test failure. -/
def Err.isSelfTest : Err → Bool
  | .selfTestFailure _ _ _ _ => true
  | _ => false

/-- Whether an event is an actuator command. -/
def Event.isActuatorMove : Event → Bool
  | .actuatorMove _ => true
  | _ => false

/-- Whether an event is a power-off of a rail. -/
def Event.isTurnOff : Event → Bool
  | .turnOffPS _ => true
  | _ => false

/-- Whether an event is a printed line. -/
def Event.isLog : Event → Bool
  | .log _ => true
  | _ => false

/-- A threshold entry `(axis, lo, hi)` is violated by the given deltas
when the delta on that axis is outside the closed band `[lo, hi]`. -/
def violatesBand (delta : Axis → ℚ) (entry : Axis × ℚ × ℚ) : Bool :=
  ! decide (entry.2.1 ≤ delta entry.1 ∧ delta entry.1 ≤ entry.2.2)

/-- The first four statements of the `try` block — power-on, bus setup,
configuration, self test — i.e. everything before any actuator command.
`runBody` is proved equal to `prePhase` followed by `actuatorPhase`
(associativity of sequencing). -/
def prePhase (b : Board) : M Unit :=
  M.bind (turnOnPS b "3V3") fun _ =>
  M.bind (i2cSetup b "MCU_DIO1" "MCU_DIO2" 400000) fun _ =>
  M.bind (configureAccelerometer b) fun _ =>
  performSelfTest b

/-- The three actuator motion checks of the `try` block. -/
def actuatorPhase (b : Board) : M Unit :=
  M.bind (actuatorTest b "slow_climb" checkSlowClimb) fun _ =>
  M.bind (actuatorTest b "sharp_turn" checkSharpTurn) fun _ =>
  actuatorTest b "quick_drop" checkQuickDrop

/-- A computation appends no event satisfying `p` to the trace,
whether it succeeds or raises. -/
def NoNew (p : Event → Bool) {α : Type} (m : M α) : Prop :=
  ∀ s : St, ((m s).2).trace.filter p = s.trace.filter p

/-- A board on which every call succeeds and every read returns the
byte buffer `00 FF 00 FF 33 FF` (counts x = y = -256, z = -205). -/
def sampleBoard : Board where
  turnOnOk := true
  i2cSetupOk := true
  writeOk := fun _ => true
  readData := fun _ => some [0x00, 0xFF, 0x00, 0xFF, 0x33, 0xFF]
  actuatorOk := fun _ => true
  turnOffOk := true

/-- A board whose reads return only 5 bytes. -/
def shortReadBoard : Board where
  turnOnOk := true
  i2cSetupOk := true
  writeOk := fun _ => true
  readData := fun _ => some [0, 0, 0, 0, 0]
  actuatorOk := fun _ => true
  turnOffOk := true

/-- A board on which every fixture call succeeds but every read returns
six zero bytes: baseline and stimulated samples are both zero, so every
self-test delta is 0 and the self test fails (first on the x axis). -/
def stZeroBoard : Board where
  turnOnOk := true
  i2cSetupOk := true
  writeOk := fun _ => true
  readData := fun _ => some [0, 0, 0, 0, 0, 0]
  actuatorOk := fun _ => true
  turnOffOk := true

/-- Shape of the side conditions: `p` holds on no event the pre-actuator
phase can emit. -/
structure QuietPred (p : Event → Bool) : Prop where
  turnOn : ∀ rail, p (.turnOnPS rail) = false
  setup : ∀ sda scl freq, p (.i2cSetup sda scl freq) = false
  write : ∀ addr bytes, p (.i2cWrite addr bytes) = false
  read : ∀ addr bytes n, p (.i2cRead addr bytes n) = false
  settle : ∀ ms, p (.sleep ms) = false

/-! ## Helper lemmas -/

/-- Sequencing is associative. -/
theorem M.bind_assoc {α β γ : Type} (m : M α) (f : α → M β) (g : β → M γ) :
    M.bind (M.bind m f) g = M.bind m fun a => M.bind (f a) g := by
  funext s
  unfold M.bind
  rcases m s with ⟨r, s'⟩
  cases r <;> rfl

/-- Case analysis for one sequencing step: either the first part raised
and the whole is that failure with its state, or it succeeded and the
whole is the continuation run from its state. -/
theorem M.bind_cases {α β : Type} (m : M α) (f : α → M β) (s : St) :
    (∃ e s1, m s = (.error e, s1) ∧ M.bind m f s = (.error e, s1)) ∨
    (∃ a s1, m s = (.ok a, s1) ∧ M.bind m f s = f a s1) := by
  unfold M.bind
  rcases hm : m s with ⟨r, s1⟩
  cases r with
  | ok a => exact Or.inr ⟨a, s1, rfl, rfl⟩
  | error e => exact Or.inl ⟨e, s1, rfl, rfl⟩

/-- The `try` block is the pre-actuator phase followed by the actuator
phase. -/
theorem runBody_phases (b : Board) :
    runBody b = M.bind (prePhase b) fun _ => actuatorPhase b := by
  simp only [runBody, prePhase, actuatorPhase, M.bind_assoc]

/-- Signed 16-bit little-endian decoding is the two's-complement value
of the byte pair: the unique integer in [-32768, 32768) congruent to
`lo + 256 * hi` modulo 65536. -/
theorem toInt16LE_spec (lo hi : Byte) :
    -32768 ≤ toInt16LE lo hi ∧ toInt16LE lo hi < 32768 ∧
      toInt16LE lo hi % 65536 = lo.val + 256 * hi.val := by
  have hlo := lo.isLt
  have hhi := hi.isLt
  simp only [toInt16LE, toUInt16LE]
  split_ifs <;> push_cast <;> omega

/-- Sequencing preserves `NoNew`. -/
theorem NoNew.bind {p : Event → Bool} {α β : Type} {m : M α} {f : α → M β}
    (hm : NoNew p m) (hf : ∀ a, NoNew p (f a)) : NoNew p (M.bind m f) := by
  intro s
  have hm' := hm s
  unfold M.bind
  rcases hms : m s with ⟨r, s'⟩
  rw [hms] at hm'
  cases r with
  | ok a => rw [hf a s', hm']
  | error e => exact hm'

/-- Lifting a pure computation appends nothing to the trace. -/
theorem NoNew.lift {p : Event → Bool} {α : Type} (x : Except Err α) :
    NoNew p (M.lift x) := fun _ => rfl

theorem NoNew.turnOnPS {p : Event → Bool} (b : Board) (rail : String)
    (hp : p (.turnOnPS rail) = false) : NoNew p (ADXL345.turnOnPS b rail) := by
  intro s
  simp [ADXL345.turnOnPS, List.filter_append, List.filter_cons, hp]

theorem NoNew.i2cSetup {p : Event → Bool} (b : Board) (sda scl : String)
    (freq : Nat) (hp : p (.i2cSetup sda scl freq) = false) :
    NoNew p (ADXL345.i2cSetup b sda scl freq) := by
  intro s
  simp [ADXL345.i2cSetup, List.filter_append, List.filter_cons, hp]

theorem NoNew.i2cCmdWrite {p : Event → Bool} (b : Board) (addr : Nat)
    (bytes : List Nat) (hp : p (.i2cWrite addr bytes) = false) :
    NoNew p (ADXL345.i2cCmdWrite b addr bytes) := by
  intro s
  simp [ADXL345.i2cCmdWrite, List.filter_append, List.filter_cons, hp]

theorem NoNew.i2cCmdRead {p : Event → Bool} (b : Board) (addr : Nat)
    (bytes : List Nat) (respLen : Nat)
    (hp : p (.i2cRead addr bytes respLen) = false) :
    NoNew p (ADXL345.i2cCmdRead b addr bytes respLen) := by
  intro s
  simp [ADXL345.i2cCmdRead, List.filter_append, List.filter_cons, hp]

theorem NoNew.sleep {p : Event → Bool} (ms : Nat)
    (hp : p (.sleep ms) = false) : NoNew p (ADXL345.sleep ms) := by
  intro s
  simp [ADXL345.sleep, List.filter_append, List.filter_cons, hp]

theorem NoNew.actuatorMove {p : Event → Bool} (b : Board) (config : String)
    (hp : p (.actuatorMove config) = false) :
    NoNew p (ADXL345.actuatorMove b config) := by
  intro s
  simp [ADXL345.actuatorMove, List.filter_append, List.filter_cons, hp]

theorem NoNew.readAcceleration {p : Event → Bool} (b : Board)
    (hr : ∀ addr bytes n, p (.i2cRead addr bytes n) = false) :
    NoNew p (ADXL345.readAcceleration b) :=
  NoNew.bind (NoNew.i2cCmdRead b _ _ _ (hr _ _ _)) fun _ => NoNew.lift _

theorem NoNew.configureAccelerometer {p : Event → Bool} (b : Board)
    (hq : QuietPred p) : NoNew p (ADXL345.configureAccelerometer b) :=
  NoNew.bind (NoNew.i2cCmdWrite b _ _ (hq.write _ _)) fun _ =>
  NoNew.bind (NoNew.i2cCmdWrite b _ _ (hq.write _ _)) fun _ =>
  NoNew.bind (NoNew.i2cCmdWrite b _ _ (hq.write _ _)) fun _ =>
  NoNew.sleep _ (hq.settle _)

theorem NoNew.performSelfTest {p : Event → Bool} (b : Board)
    (hq : QuietPred p) : NoNew p (ADXL345.performSelfTest b) :=
  NoNew.bind (NoNew.i2cCmdWrite b _ _ (hq.write _ _)) fun _ =>
  NoNew.bind (NoNew.sleep _ (hq.settle _)) fun _ =>
  NoNew.bind (NoNew.readAcceleration b hq.read) fun _ =>
  NoNew.bind (NoNew.i2cCmdWrite b _ _ (hq.write _ _)) fun _ =>
  NoNew.bind (NoNew.sleep _ (hq.settle _)) fun _ =>
  NoNew.bind (NoNew.readAcceleration b hq.read) fun _ =>
  NoNew.bind (NoNew.i2cCmdWrite b _ _ (hq.write _ _)) fun _ =>
  NoNew.lift _

theorem NoNew.prePhase {p : Event → Bool} (b : Board) (hq : QuietPred p) :
    NoNew p (ADXL345.prePhase b) :=
  NoNew.bind (NoNew.turnOnPS b _ (hq.turnOn _)) fun _ =>
  NoNew.bind (NoNew.i2cSetup b _ _ _ (hq.setup _ _ _)) fun _ =>
  NoNew.bind (NoNew.configureAccelerometer b hq) fun _ =>
  NoNew.performSelfTest b hq

theorem NoNew.actuatorTest {p : Event → Bool} (b : Board) (config : String)
    (check : AxisSample → Except Err Unit) (hq : QuietPred p)
    (hact : ∀ c, p (.actuatorMove c) = false) :
    NoNew p (ADXL345.actuatorTest b config check) :=
  NoNew.bind (NoNew.actuatorMove b _ (hact _)) fun _ =>
  NoNew.bind (NoNew.readAcceleration b hq.read) fun _ =>
  NoNew.lift _

theorem NoNew.runBody {p : Event → Bool} (b : Board) (hq : QuietPred p)
    (hact : ∀ c, p (.actuatorMove c) = false) : NoNew p (ADXL345.runBody b) := by
  rw [runBody_phases]
  exact NoNew.bind (NoNew.prePhase b hq) fun _ =>
    NoNew.bind (NoNew.actuatorTest b _ _ hq hact) fun _ =>
    NoNew.bind (NoNew.actuatorTest b _ _ hq hact) fun _ =>
    NoNew.actuatorTest b _ _ hq hact

/-- Predicate `Event.isActuatorMove` is quiet for the pre-actuator phase. -/
theorem quiet_isActuatorMove : QuietPred Event.isActuatorMove :=
  ⟨fun _ => rfl, fun _ _ _ => rfl, fun _ _ => rfl, fun _ _ _ => rfl,
   fun _ => rfl⟩

theorem quiet_isTurnOff : QuietPred Event.isTurnOff :=
  ⟨fun _ => rfl, fun _ _ _ => rfl, fun _ _ => rfl, fun _ _ _ => rfl,
   fun _ => rfl⟩

theorem quiet_isLog : QuietPred Event.isLog :=
  ⟨fun _ => rfl, fun _ _ _ => rfl, fun _ _ => rfl, fun _ _ _ => rfl,
   fun _ => rfl⟩

/-- If neither part of a sequenced computation can raise a self-test
failure, the whole cannot. -/
theorem errNotSelfTest_bind {α β : Type} {m : M α} {f : α → M β}
    (hm : ∀ s e, (m s).1 = .error e → e.isSelfTest = false)
    (hf : ∀ a s e, (f a s).1 = .error e → e.isSelfTest = false) :
    ∀ s e, (M.bind m f s).1 = .error e → e.isSelfTest = false := by
  intro s e h
  unfold M.bind at h
  rcases hms : m s with ⟨r, s'⟩
  rw [hms] at h
  cases r with
  | ok a => exact hf a s' e h
  | error e' =>
      simp only at h
      have : e' = e := by injection h
      exact this ▸ hm s e' (by rw [hms])

theorem turnOnPS_err (b : Board) (rail : String) :
    ∀ s e, (turnOnPS b rail s).1 = .error e → e.isSelfTest = false := by
  intro s e h
  cases hb : b.turnOnOk <;> simp_all [ADXL345.turnOnPS] <;> (subst h; rfl)

theorem i2cSetup_err (b : Board) (sda scl : String) (freq : Nat) :
    ∀ s e, (i2cSetup b sda scl freq s).1 = .error e →
      e.isSelfTest = false := by
  intro s e h
  cases hb : b.i2cSetupOk <;> simp_all [ADXL345.i2cSetup] <;> (subst h; rfl)

theorem i2cCmdWrite_err (b : Board) (addr : Nat) (bytes : List Nat) :
    ∀ s e, (i2cCmdWrite b addr bytes s).1 = .error e →
      e.isSelfTest = false := by
  intro s e h
  cases hb : b.writeOk s.writes <;>
    simp_all [ADXL345.i2cCmdWrite] <;> (subst h; rfl)

theorem i2cCmdRead_err (b : Board) (addr : Nat) (bytes : List Nat)
    (respLen : Nat) :
    ∀ s e, (i2cCmdRead b addr bytes respLen s).1 = .error e →
      e.isSelfTest = false := by
  intro s e h
  cases hb : b.readData s.reads <;>
    simp_all [ADXL345.i2cCmdRead] <;> (subst h; rfl)

theorem sleep_err (ms : Nat) :
    ∀ s e, (sleep ms s).1 = .error e → e.isSelfTest = false := by
  intro s e h
  simp_all [ADXL345.sleep]

theorem actuatorMove_err (b : Board) (config : String) :
    ∀ s e, (actuatorMove b config s).1 = .error e →
      e.isSelfTest = false := by
  intro s e h
  cases hb : b.actuatorOk config <;>
    simp_all [ADXL345.actuatorMove] <;> (subst h; rfl)

/-- A wrong-length buffer raises `malformedResponse`, never a self-test
failure. -/
theorem decodeAcceleration_err (data : List Byte) (e : Err)
    (h : decodeAcceleration data = .error e) : e.isSelfTest = false := by
  unfold decodeAcceleration at h
  rcases hu : unpackHHH data with _ | ⟨⟨x, y, z⟩⟩ <;>
    simp_all <;> (subst h; rfl)

theorem readAcceleration_err (b : Board) :
    ∀ s e, (readAcceleration b s).1 = .error e → e.isSelfTest = false :=
  errNotSelfTest_bind (i2cCmdRead_err b _ _ _)
    fun data _ e h => decodeAcceleration_err data e h

theorem checkSlowClimb_err :
    ∀ acc e, checkSlowClimb acc = .error e → e.isSelfTest = false := by
  intro acc e h
  unfold checkSlowClimb at h
  split_ifs at h <;> simp_all <;> (subst h; rfl)

theorem checkSharpTurn_err :
    ∀ acc e, checkSharpTurn acc = .error e → e.isSelfTest = false := by
  intro acc e h
  unfold checkSharpTurn at h
  split_ifs at h <;> simp_all <;> (subst h; rfl)

theorem checkQuickDrop_err :
    ∀ acc e, checkQuickDrop acc = .error e → e.isSelfTest = false := by
  intro acc e h
  unfold checkQuickDrop at h
  split_ifs at h <;> simp_all <;> (subst h; rfl)

/-- A failure raised by an actuator motion check step is never a
self-test failure. -/
theorem actuatorTest_err (b : Board) (config : String)
    (check : AxisSample → Except Err Unit)
    (hchk : ∀ acc e, check acc = .error e → e.isSelfTest = false) :
    ∀ s e, (actuatorTest b config check s).1 = .error e →
      e.isSelfTest = false :=
  errNotSelfTest_bind (actuatorMove_err b config) fun _ =>
    errNotSelfTest_bind (readAcceleration_err b)
      fun acc _ e h => hchk acc e h

/-- No failure raised in the actuator phase is a self-test failure. -/
theorem actuatorPhase_err (b : Board) :
    ∀ s e, (actuatorPhase b s).1 = .error e → e.isSelfTest = false :=
  errNotSelfTest_bind (actuatorTest_err b _ _ checkSlowClimb_err) fun _ =>
    errNotSelfTest_bind (actuatorTest_err b _ _ checkSharpTurn_err) fun _ =>
      actuatorTest_err b _ _ checkQuickDrop_err

/-- When the continuation appends no `p`-event, the filtered trace of a
sequenced computation is that of its first part. -/
theorem filter_bind_first {α β : Type} (p : Event → Bool) (m : M α)
    (f : α → M β) (hf : ∀ a, NoNew p (f a)) (s : St) :
    ((M.bind m f) s).2.trace.filter p = ((m s).2).trace.filter p := by
  unfold M.bind
  rcases hm : m s with ⟨r, s'⟩
  cases r with
  | ok a => exact hf a s'
  | error e => rfl

/-- One actuator step appends exactly one actuator command — its own —
to the trace, whether the step succeeds or raises (the command is
issued before the read and the check). -/
theorem actuatorTest_actuatorEvents (b : Board) (config : String)
    (check : AxisSample → Except Err Unit) (s : St) :
    ((actuatorTest b config check) s).2.trace.filter Event.isActuatorMove =
      s.trace.filter Event.isActuatorMove ++ [.actuatorMove config] := by
  have hrest : ∀ a : Unit, NoNew Event.isActuatorMove
      (M.bind (readAcceleration b) fun acc => M.lift (check acc)) :=
    fun _ => NoNew.bind (NoNew.readAcceleration b fun _ _ _ => rfl)
      fun _ => NoNew.lift _
  have h1 : ((actuatorTest b config check) s).2.trace.filter
        Event.isActuatorMove =
      ((ADXL345.actuatorMove b config s).2).trace.filter
        Event.isActuatorMove :=
    filter_bind_first Event.isActuatorMove (ADXL345.actuatorMove b config)
      (fun _ => M.bind (readAcceleration b) fun acc => M.lift (check acc))
      hrest s
  rw [h1]
  have h2 : (ADXL345.actuatorMove b config s).2.trace =
      s.trace ++ [.actuatorMove config] := rfl
  rw [h2]
  simp [List.filter_append, Event.isActuatorMove]

/-- The recorded outcome fields and the actuator events of a run whose
body raised `e`. -/
theorem runTest_parts_error (b : Board) (elapsed : String) (e : Err)
    (s' : St) (hr : runBody b St.init = (.error e, s')) :
    (runTest b elapsed).failureReason = some e ∧
    (runTest b elapsed).testPassed = false ∧
    (runTest b elapsed).trace.filter Event.isActuatorMove =
      s'.trace.filter Event.isActuatorMove := by
  refine ⟨?_, ?_, ?_⟩ <;> simp only [runTest, hr]
  simp [ADXL345.turnOffPS, List.filter_append, Event.isActuatorMove]

/-- The recorded outcome fields and the actuator events of a run whose
body raised nothing. -/
theorem runTest_parts_ok (b : Board) (elapsed : String)
    (s' : St) (hr : runBody b St.init = (.ok (), s')) :
    (runTest b elapsed).failureReason = none ∧
    (runTest b elapsed).testPassed = true ∧
    (runTest b elapsed).trace.filter Event.isActuatorMove =
      s'.trace.filter Event.isActuatorMove := by
  refine ⟨?_, ?_, ?_⟩ <;> simp only [runTest, hr]
  simp [ADXL345.turnOffPS, List.filter_append, Event.isActuatorMove]

/-- The threshold loop returns the failure for the first violated entry
of the list, in list order, and succeeds when no entry is violated. -/
theorem checkThresholds_eq_find (delta : Axis → ℚ)
    (l : List (Axis × ℚ × ℚ)) :
    checkThresholds delta l =
      match l.find? (violatesBand delta) with
      | none => .ok ()
      | some (a, lo, hi) => .error (.selfTestFailure a (delta a) lo hi) := by
  induction l with
  | nil => rfl
  | cons e rest ih =>
      rcases e with ⟨a, lo, hi⟩
      by_cases hv : lo ≤ delta a ∧ delta a ≤ hi
      · simp [checkThresholds, hv, List.find?_cons, violatesBand, ih]
      · simp [checkThresholds, hv, List.find?_cons, violatesBand]

/-! ## Claim theorems -/

/-- C1: on any 6-byte raw buffer, `_read_acceleration` returns the
sample whose fields are `count * ACCEL_SCALE` in the fixed order x, y,
z, where each count is the two's-complement value of the little-endian
byte pairs (0,1), (2,3), (4,5) — the unique integer in
[-32768, 32768) congruent to `lo + 256 * hi` mod 65536.  Determinism
is inherent: the result is a function of the buffer. -/
theorem readAcceleration_decodes_twos_complement (b : Board) (s : St)
    (b0 b1 b2 b3 b4 b5 : Byte)
    (h : b.readData s.reads = some [b0, b1, b2, b3, b4, b5]) :
    ∃ cx cy cz : Int,
      (readAcceleration b s).1 =
        .ok ⟨(cx : ℚ) * ACCEL_SCALE, (cy : ℚ) * ACCEL_SCALE,
             (cz : ℚ) * ACCEL_SCALE⟩ ∧
      (-32768 ≤ cx ∧ cx < 32768 ∧ cx % 65536 = b0.val + 256 * b1.val) ∧
      (-32768 ≤ cy ∧ cy < 32768 ∧ cy % 65536 = b2.val + 256 * b3.val) ∧
      (-32768 ≤ cz ∧ cz < 32768 ∧ cz % 65536 = b4.val + 256 * b5.val) := by
  refine ⟨toInt16LE b0 b1, toInt16LE b2 b3, toInt16LE b4 b5, ?_,
    toInt16LE_spec b0 b1, toInt16LE_spec b2 b3, toInt16LE_spec b4 b5⟩
  simp [readAcceleration, M.bind, i2cCmdRead, h, M.lift,
    decodeAcceleration, unpackHHH]

/-- Witness for C1 at the concrete buffer `00 FF 00 FF 33 FF`. -/
theorem readAcceleration_decodes_twos_complement_witness :
    ∃ cx cy cz : Int,
      (readAcceleration sampleBoard St.init).1 =
        .ok ⟨(cx : ℚ) * ACCEL_SCALE, (cy : ℚ) * ACCEL_SCALE,
             (cz : ℚ) * ACCEL_SCALE⟩ ∧
      (-32768 ≤ cx ∧ cx < 32768 ∧
        cx % 65536 = (0x00 : Byte).val + 256 * (0xFF : Byte).val) ∧
      (-32768 ≤ cy ∧ cy < 32768 ∧
        cy % 65536 = (0x00 : Byte).val + 256 * (0xFF : Byte).val) ∧
      (-32768 ≤ cz ∧ cz < 32768 ∧
        cz % 65536 = (0x33 : Byte).val + 256 * (0xFF : Byte).val) :=
  readAcceleration_decodes_twos_complement sampleBoard St.init
    0x00 0xFF 0x00 0xFF 0x33 0xFF rfl

/-- C2: when the read returns a buffer whose length is not 6,
`_read_acceleration` raises the malformed-response condition (which
propagates) and never returns a sample. -/
theorem readAcceleration_wrong_length_raises (b : Board) (s : St)
    (data : List Byte) (h : b.readData s.reads = some data)
    (hlen : data.length ≠ 6) :
    (readAcceleration b s).1 = .error (.malformedResponse data.length) := by
  simp [readAcceleration, M.bind, i2cCmdRead, h, M.lift,
    decodeAcceleration, unpackHHH, hlen]

/-- Witness for C2 at a concrete 5-byte buffer. -/
theorem readAcceleration_wrong_length_raises_witness :
    (readAcceleration shortReadBoard St.init).1 =
      .error (.malformedResponse 5) :=
  readAcceleration_wrong_length_raises shortReadBoard St.init
    [0, 0, 0, 0, 0] rfl (by simp)

/-- C3: the self-test evaluation passes (raises nothing) iff each axis
delta `stimulated - baseline` lies in its closed band: x and y in
[-1.2, -0.9], z in [-1.0, -0.7]; the boundary values -1.2, -0.9, -1.0
and -0.7 are accepted. -/
theorem selfTest_passes_iff_deltas_in_band (baseline st : AxisSample) :
    (selfTestCheck baseline st = .ok () ↔
      ((-12/10 ≤ st.x - baseline.x ∧ st.x - baseline.x ≤ -9/10) ∧
       (-12/10 ≤ st.y - baseline.y ∧ st.y - baseline.y ≤ -9/10) ∧
       (-1 ≤ st.z - baseline.z ∧ st.z - baseline.z ≤ -7/10))) ∧
    selfTestCheck ⟨0, 0, 0⟩ ⟨-12/10, -9/10, -1⟩ = .ok () ∧
    selfTestCheck ⟨0, 0, 0⟩ ⟨-9/10, -12/10, -7/10⟩ = .ok () := by
  refine ⟨?_,
    by norm_num [selfTestCheck, SELF_TEST_THRESHOLDS, checkThresholds,
      selfTestDelta, AxisSample.get],
    by norm_num [selfTestCheck, SELF_TEST_THRESHOLDS, checkThresholds,
      selfTestDelta, AxisSample.get]⟩
  simp only [selfTestCheck, SELF_TEST_THRESHOLDS, checkThresholds,
    selfTestDelta, AxisSample.get]
  split_ifs with h1 h2 h3 <;> simp_all

/-- C4: when some axis delta is out of band, the self-test evaluation
raises a failure naming exactly the first failing axis in the order x,
y, z, with that axis's delta and expected band; later axes are not
reported (first-failure-wins). -/
theorem selfTest_reports_first_failing_axis (baseline st : AxisSample)
    (a : Axis) (lo hi : ℚ)
    (h : SELF_TEST_THRESHOLDS.find?
          (violatesBand (selfTestDelta baseline st)) = some (a, lo, hi)) :
    selfTestCheck baseline st =
      .error (.selfTestFailure a (selfTestDelta baseline st a) lo hi) := by
  rw [selfTestCheck, checkThresholds_eq_find, h]

/-- Witness for C4: with baseline and stimulated both zero, every delta
is 0 and the reported failure is the x axis (the first in order) with
delta 0 and band [-1.2, -0.9], even though y and z are also out of
band. -/
theorem selfTest_reports_first_failing_axis_witness :
    selfTestCheck ⟨0, 0, 0⟩ ⟨0, 0, 0⟩ =
      .error (.selfTestFailure .x
        (selfTestDelta ⟨0, 0, 0⟩ ⟨0, 0, 0⟩ .x) (-12/10) (-9/10)) :=
  selfTest_reports_first_failing_axis ⟨0, 0, 0⟩ ⟨0, 0, 0⟩ .x (-12/10) (-9/10)
    (by norm_num [SELF_TEST_THRESHOLDS, List.find?_cons, violatesBand,
      selfTestDelta, AxisSample.get])

/-- C5: the SharpTurn check accepts iff x > 5.0 and y > 5.0, with the
bound strictly open: a sample with x or y exactly 5.0 fails. -/
theorem sharpTurn_accepts_iff_strictly_above_five (s : AxisSample) :
    (checkSharpTurn s = .ok () ↔ 5 < s.x ∧ 5 < s.y) ∧
    checkSharpTurn ⟨5, 6, 0⟩ ≠ .ok () ∧
    checkSharpTurn ⟨6, 5, 0⟩ ≠ .ok () := by
  refine ⟨?_, by norm_num [checkSharpTurn]; simp, by norm_num [checkSharpTurn]; simp⟩
  simp only [checkSharpTurn]
  split_ifs with h <;> simp_all

/-- C6: the SlowClimb check accepts iff y lies in [-1.0, 1.0] and z
lies in [6.0, 8.0]; the sample (0, 0.5, 7) passes and the sample
(0, 2, 7) fails naming the y axis. -/
theorem slowClimb_accepts_iff_bands (s : AxisSample) :
    (checkSlowClimb s = .ok () ↔
      (-1 ≤ s.y ∧ s.y ≤ 1) ∧ (6 ≤ s.z ∧ s.z ≤ 8)) ∧
    checkSlowClimb ⟨0, 1/2, 7⟩ = .ok () ∧
    checkSlowClimb ⟨0, 2, 7⟩ = .error (.slowClimbFailure .y 2) := by
  refine ⟨?_, by norm_num [checkSlowClimb], by norm_num [checkSlowClimb]⟩
  simp only [checkSlowClimb]
  split_ifs with h1 h2 <;> simp_all

/-- C7: once any step of the sequence configuration → self-test →
SlowClimb → SharpTurn → QuickDrop raises a condition, the run records
that condition, is marked failed, and all remaining steps are skipped.
Concretely: any recorded condition means the failed outcome; a recorded
self-test failure means zero actuator commands in the trace; a failure
raised anywhere in the pre-actuator phase (power-on, bus setup,
configuration, self test) means no actuator command is ever issued; a
failure in the SlowClimb step means only `slow_climb` was commanded
(sharp_turn and quick_drop skipped); a failure in the SharpTurn step
means `quick_drop` is never commanded; and all three commands appear
only when no condition was recorded. -/
theorem anyStepFail_skips_remaining_steps (b : Board) (elapsed : String) :
    (∀ e, (runTest b elapsed).failureReason = some e →
      (runTest b elapsed).testPassed = false) ∧
    (∀ a d lo hi, (runTest b elapsed).failureReason =
        some (.selfTestFailure a d lo hi) →
      (runTest b elapsed).trace.countP Event.isActuatorMove = 0) ∧
    (∀ e, (prePhase b St.init).1 = .error e →
      (runTest b elapsed).failureReason = some e ∧
      (runTest b elapsed).trace.filter Event.isActuatorMove = []) ∧
    (∀ sp e, prePhase b St.init = (.ok (), sp) →
      (actuatorTest b "slow_climb" checkSlowClimb sp).1 = .error e →
      (runTest b elapsed).failureReason = some e ∧
      (runTest b elapsed).trace.filter Event.isActuatorMove =
        [.actuatorMove "slow_climb"]) ∧
    (∀ sp t1 e, prePhase b St.init = (.ok (), sp) →
      actuatorTest b "slow_climb" checkSlowClimb sp = (.ok (), t1) →
      (actuatorTest b "sharp_turn" checkSharpTurn t1).1 = .error e →
      (runTest b elapsed).failureReason = some e ∧
      (runTest b elapsed).trace.filter Event.isActuatorMove =
        [.actuatorMove "slow_climb", .actuatorMove "sharp_turn"]) ∧
    ((runTest b elapsed).failureReason = none →
      (runTest b elapsed).trace.filter Event.isActuatorMove =
        [.actuatorMove "slow_climb", .actuatorMove "sharp_turn",
         .actuatorMove "quick_drop"]) := by
  rcases hr : runBody b St.init with ⟨r, s'⟩
  have hbody : runBody b St.init = (r, s') := hr
  rw [runBody_phases] at hr
  unfold M.bind at hr
  rcases hp : prePhase b St.init with ⟨rp, sp⟩
  rw [hp] at hr
  have hpre : sp.trace.filter Event.isActuatorMove = [] := by
    have := NoNew.prePhase b quiet_isActuatorMove St.init
    rw [hp] at this
    simpa [St.init] using this
  cases rp with
  | error ep =>
      have hr2 : ((Except.error ep : Except Err Unit), sp) = (r, s') := hr
      injection hr2 with hrEq hsEq
      subst hrEq
      subst hsEq
      obtain ⟨hreason, hpassed, hfilter⟩ :=
        runTest_parts_error b elapsed ep sp hbody
      rw [hpre] at hfilter
      refine ⟨?_, ?_, ?_, ?_, ?_, ?_⟩
      · intro e _
        exact hpassed
      · intro a d lo hi _
        simp [List.countP_eq_length_filter, hfilter]
      · intro e he
        injection he with he
        rw [he] at hreason
        exact ⟨hreason, hfilter⟩
      · intro sp0 e hpe hact
        injection hpe with hA hB
        injection hA
      · intro sp0 t1 e hpe hact1 hact2
        injection hpe with hA hB
        injection hA
      · intro hnone
        rw [hreason] at hnone
        exact Option.noConfusion hnone
  | ok u =>
      cases u
      have hAP : M.bind (actuatorTest b "slow_climb" checkSlowClimb)
          (fun _ => M.bind (actuatorTest b "sharp_turn" checkSharpTurn)
            fun _ => actuatorTest b "quick_drop" checkQuickDrop) sp =
          (r, s') := hr
      rcases M.bind_cases (actuatorTest b "slow_climb" checkSlowClimb)
          (fun _ => M.bind (actuatorTest b "sharp_turn" checkSharpTurn)
            fun _ => actuatorTest b "quick_drop" checkQuickDrop) sp with
        ⟨e1, t1, h1, hstep⟩ | ⟨u1, t1, h1, hstep⟩
      · -- the SlowClimb step raised e1
        have hr3 : ((Except.error e1 : Except Err Unit), t1) = (r, s') :=
          hstep.symm.trans hAP
        injection hr3 with hrEq hsEq
        subst hrEq
        subst hsEq
        obtain ⟨hreason, hpassed, hfilter⟩ :=
          runTest_parts_error b elapsed e1 t1 hbody
        have hft1 : t1.trace.filter Event.isActuatorMove =
            sp.trace.filter Event.isActuatorMove ++
              [.actuatorMove "slow_climb"] := by
          have := actuatorTest_actuatorEvents b "slow_climb" checkSlowClimb sp
          rw [h1] at this
          exact this
        rw [hft1, hpre, List.nil_append] at hfilter
        have hnotST : Err.isSelfTest e1 = false :=
          actuatorTest_err b "slow_climb" checkSlowClimb
            checkSlowClimb_err sp e1 (by rw [h1])
        refine ⟨?_, ?_, ?_, ?_, ?_, ?_⟩
        · intro e _
          exact hpassed
        · intro a d lo hi he
          rw [hreason] at he
          injection he with he
          rw [he] at hnotST
          simp [Err.isSelfTest] at hnotST
        · intro e he
          injection he
        · intro sp0 e hpe hact
          injection hpe with hU hB
          subst hB
          rw [h1] at hact
          injection hact with hact
          rw [← hact]
          exact ⟨hreason, hfilter⟩
        · intro sp0 t1' e hpe hact1 hact2
          injection hpe with hU hB
          subst hB
          rw [h1] at hact1
          injection hact1 with hA hC
          injection hA
        · intro hnone
          rw [hreason] at hnone
          exact Option.noConfusion hnone
      · -- the SlowClimb step succeeded
        cases u1
        have hft1 : t1.trace.filter Event.isActuatorMove =
            sp.trace.filter Event.isActuatorMove ++
              [.actuatorMove "slow_climb"] := by
          have := actuatorTest_actuatorEvents b "slow_climb" checkSlowClimb sp
          rw [h1] at this
          exact this
        have hAP2 : M.bind (actuatorTest b "sharp_turn" checkSharpTurn)
            (fun _ => actuatorTest b "quick_drop" checkQuickDrop) t1 =
            (r, s') := hstep.symm.trans hAP
        rcases M.bind_cases (actuatorTest b "sharp_turn" checkSharpTurn)
            (fun _ => actuatorTest b "quick_drop" checkQuickDrop) t1 with
          ⟨e2, t2, h2, hstep2⟩ | ⟨u2, t2, h2, hstep2⟩
        · -- the SharpTurn step raised e2
          have hr3 : ((Except.error e2 : Except Err Unit), t2) = (r, s') :=
            hstep2.symm.trans hAP2
          injection hr3 with hrEq hsEq
          subst hrEq
          subst hsEq
          obtain ⟨hreason, hpassed, hfilter⟩ :=
            runTest_parts_error b elapsed e2 t2 hbody
          have hft2 : t2.trace.filter Event.isActuatorMove =
              t1.trace.filter Event.isActuatorMove ++
                [.actuatorMove "sharp_turn"] := by
            have := actuatorTest_actuatorEvents b "sharp_turn"
              checkSharpTurn t1
            rw [h2] at this
            exact this
          rw [hft2, hft1, hpre, List.nil_append] at hfilter
          have hnotST : Err.isSelfTest e2 = false :=
            actuatorTest_err b "sharp_turn" checkSharpTurn
              checkSharpTurn_err t1 e2 (by rw [h2])
          refine ⟨?_, ?_, ?_, ?_, ?_, ?_⟩
          · intro e _
            exact hpassed
          · intro a d lo hi he
            rw [hreason] at he
            injection he with he
            rw [he] at hnotST
            simp [Err.isSelfTest] at hnotST
          · intro e he
            injection he
          · intro sp0 e hpe hact
            injection hpe with hU hB
            subst hB
            rw [h1] at hact
            injection hact
          · intro sp0 t1' e hpe hact1 hact2
            injection hpe with hU hB
            subst hB
            rw [h1] at hact1
            injection hact1 with hU2 hC
            subst hC
            rw [h2] at hact2
            injection hact2 with hact2
            rw [← hact2]
            exact ⟨hreason, by simpa using hfilter⟩
          · intro hnone
            rw [hreason] at hnone
            exact Option.noConfusion hnone
        · -- the SharpTurn step succeeded; the QuickDrop step ran last
          cases u2
          have hft2 : t2.trace.filter Event.isActuatorMove =
              t1.trace.filter Event.isActuatorMove ++
                [.actuatorMove "sharp_turn"] := by
            have := actuatorTest_actuatorEvents b "sharp_turn"
              checkSharpTurn t1
            rw [h2] at this
            exact this
          have hr3 : actuatorTest b "quick_drop" checkQuickDrop t2 =
              (r, s') := hstep2.symm.trans hAP2
          have hft3 : s'.trace.filter Event.isActuatorMove =
              t2.trace.filter Event.isActuatorMove ++
                [.actuatorMove "quick_drop"] := by
            have := actuatorTest_actuatorEvents b "quick_drop"
              checkQuickDrop t2
            rw [hr3] at this
            exact this
          cases r with
          | ok u3 =>
              cases u3
              obtain ⟨hreason, hpassed, hfilter⟩ :=
                runTest_parts_ok b elapsed s' hbody
              rw [hft3, hft2, hft1, hpre, List.nil_append] at hfilter
              refine ⟨?_, ?_, ?_, ?_, ?_, ?_⟩
              · intro e he
                rw [hreason] at he
                exact Option.noConfusion he
              · intro a d lo hi he
                rw [hreason] at he
                exact Option.noConfusion he
              · intro e he
                injection he
              · intro sp0 e hpe hact
                injection hpe with hU hB
                subst hB
                rw [h1] at hact
                injection hact
              · intro sp0 t1' e hpe hact1 hact2
                injection hpe with hU hB
                subst hB
                rw [h1] at hact1
                injection hact1 with hU2 hC
                subst hC
                rw [h2] at hact2
                injection hact2
              · intro _
                simpa using hfilter
          | error e3 =>
              obtain ⟨hreason, hpassed, hfilter⟩ :=
                runTest_parts_error b elapsed e3 s' hbody
              rw [hft3, hft2, hft1, hpre, List.nil_append] at hfilter
              have hnotST : Err.isSelfTest e3 = false :=
                actuatorTest_err b "quick_drop" checkQuickDrop
                  checkQuickDrop_err t2 e3 (by rw [hr3])
              refine ⟨?_, ?_, ?_, ?_, ?_, ?_⟩
              · intro e _
                exact hpassed
              · intro a d lo hi he
                rw [hreason] at he
                injection he with he
                rw [he] at hnotST
                simp [Err.isSelfTest] at hnotST
              · intro e he
                injection he
              · intro sp0 e hpe hact
                injection hpe with hU hB
                subst hB
                rw [h1] at hact
                injection hact
              · intro sp0 t1' e hpe hact1 hact2
                injection hpe with hU hB
                subst hB
                rw [h1] at hact1
                injection hact1 with hU2 hC
                subst hC
                rw [h2] at hact2
                injection hact2
              · intro hnone
                rw [hreason] at hnone
                exact Option.noConfusion hnone

/-- Witness for C7: on the board whose reads are all zero the
pre-actuator phase raises a self-test failure, the run records it, and
the trace contains no actuator command. -/
theorem anyStepFail_skips_remaining_steps_witness :
    (runTest stZeroBoard "0.40").failureReason =
      some (.selfTestFailure .x 0 (-12/10) (-9/10)) ∧
    (runTest stZeroBoard "0.40").trace.filter Event.isActuatorMove = [] :=
  (anyStepFail_skips_remaining_steps stZeroBoard "0.40").2.2.1
    (.selfTestFailure .x 0 (-12/10) (-9/10))
    (by norm_num [prePhase, M.bind, M.lift, turnOnPS, i2cSetup,
      i2cCmdWrite, i2cCmdRead, sleep, readAcceleration,
      decodeAcceleration, unpackHHH, configureAccelerometer,
      performSelfTest, selfTestCheck, checkThresholds,
      SELF_TEST_THRESHOLDS, selfTestDelta, AxisSample.get, toInt16LE,
      toUInt16LE, ACCEL_SCALE, stZeroBoard, St.init])

/-- C8: in every run — pass, mid-sequence failure, or power-on
failure — the 3V3 rail power-off is issued exactly once, and whether
the power-off call itself fails cannot change the recorded pass/fail
outcome or the recorded failure reason. -/
theorem runTest_powerOff_once_and_swallowed (b : Board) (elapsed : String) :
    (runTest b elapsed).trace.countP Event.isTurnOff = 1 ∧
    ∀ v : Bool,
      (runTest { b with turnOffOk := v } elapsed).testPassed =
        (runTest b elapsed).testPassed ∧
      (runTest { b with turnOffOk := v } elapsed).failureReason =
        (runTest b elapsed).failureReason := by
  constructor
  · rcases hr : runBody b St.init with ⟨r, s'⟩
    have hzero : s'.trace.filter Event.isTurnOff = [] := by
      have := NoNew.runBody b quiet_isTurnOff (fun _ => rfl) St.init
      rw [hr] at this
      simpa [St.init] using this
    simp only [runTest, hr]
    simp [ADXL345.turnOffPS, List.countP_eq_length_filter,
      List.filter_append, hzero, Event.isTurnOff]
  · intro v
    have hbody : runBody { b with turnOffOk := v } = runBody b := rfl
    constructor <;> simp only [runTest, hbody]

/-- C9: every run prints exactly one result line: the single pass line
when every step succeeded, otherwise the single fail line carrying the
description of the one condition caught at the orchestrator boundary
(`testPassed` is false exactly when a condition was recorded). -/
theorem runTest_exactly_one_result_line (b : Board) (elapsed : String) :
    ((runTest b elapsed).trace.filter Event.isLog).length = 1 ∧
    (runTest b elapsed).trace.filter Event.isLog =
      [.log (logLine (runTest b elapsed).testPassed
        (runTest b elapsed).failureReason elapsed)] ∧
    ((runTest b elapsed).testPassed = true ↔
      (runTest b elapsed).failureReason = none) ∧
    logLine true none elapsed = "TEST PASSED in " ++ elapsed ++ " sec" ∧
    ∀ e : Err, logLine false (some e) elapsed =
      "TEST FAILED in " ++ elapsed ++ " sec due to " ++ describe e := by
  rcases hr : runBody b St.init with ⟨r, s'⟩
  have hzero : s'.trace.filter Event.isLog = [] := by
    have := NoNew.runBody b quiet_isLog (fun _ => rfl) St.init
    rw [hr] at this
    simpa [St.init] using this
  refine ⟨?_, ?_, ?_, rfl, fun e => rfl⟩
  · simp only [runTest, hr]
    simp [ADXL345.turnOffPS, List.filter_append, hzero, Event.isLog]
  · simp only [runTest, hr]
    simp [ADXL345.turnOffPS, List.filter_append, hzero, Event.isLog]
  · simp only [runTest, hr]
    cases r <;> simp

/-- C10: whenever `_perform_self_test` raises a self-test failure, the
register write restoring normal (self-test-disabled) data format was
already issued — it is the last fixture call in the trace, after the
stimulated read and before the delta check raised. -/
theorem selfTest_restores_normal_mode_before_failure (b : Board) (s : St)
    (a : Axis) (d lo hi : ℚ)
    (h : (performSelfTest b s).1 = .error (.selfTestFailure a d lo hi)) :
    (performSelfTest b s).2.trace = s.trace ++
      [.i2cWrite ADXL345_ADDRESS [REG_DATA_FORMAT, DATA_FORMAT_NORMAL],
       .sleep 100,
       .i2cRead ADXL345_ADDRESS [REG_DATAX0] 6,
       .i2cWrite ADXL345_ADDRESS [REG_DATA_FORMAT, DATA_FORMAT_SELF_TEST],
       .sleep 100,
       .i2cRead ADXL345_ADDRESS [REG_DATAX0] 6,
       .i2cWrite ADXL345_ADDRESS [REG_DATA_FORMAT, DATA_FORMAT_NORMAL]] := by
  simp only [performSelfTest, readAcceleration, M.bind, M.lift,
    i2cCmdWrite, i2cCmdRead, sleep, decodeAcceleration] at h ⊢
  cases hw1 : b.writeOk s.writes with
  | false => simp [hw1] at h
  | true =>
  simp only [hw1, if_true] at h ⊢
  rcases hr1 : b.readData s.reads with _ | data
  case none => simp [hr1] at h
  case some =>
  simp only [hr1] at h ⊢
  rcases hu1 : unpackHHH data with _ | ⟨⟨x1, y1, z1⟩⟩
  case none => simp [hu1] at h
  case some =>
  simp only [hu1] at h ⊢
  cases hw2 : b.writeOk (s.writes + 1) with
  | false => simp [hw2] at h
  | true =>
  simp only [hw2, if_true] at h ⊢
  rcases hr2 : b.readData (s.reads + 1) with _ | data2
  case none => simp [hr2] at h
  case some =>
  simp only [hr2] at h ⊢
  rcases hu2 : unpackHHH data2 with _ | ⟨⟨x2, y2, z2⟩⟩
  case none => simp [hu2] at h
  case some =>
  simp only [hu2] at h ⊢
  cases hw3 : b.writeOk (s.writes + 1 + 1) with
  | false => simp [hw3] at h
  | true =>
  simp [hw3]

/-- Witness for C10: on the board whose reads are all zero the self
test raises, and the trace nonetheless ends with the write restoring
normal data format. -/
theorem selfTest_restores_normal_mode_before_failure_witness :
    (performSelfTest stZeroBoard St.init).2.trace = St.init.trace ++
      [.i2cWrite ADXL345_ADDRESS [REG_DATA_FORMAT, DATA_FORMAT_NORMAL],
       .sleep 100,
       .i2cRead ADXL345_ADDRESS [REG_DATAX0] 6,
       .i2cWrite ADXL345_ADDRESS [REG_DATA_FORMAT, DATA_FORMAT_SELF_TEST],
       .sleep 100,
       .i2cRead ADXL345_ADDRESS [REG_DATAX0] 6,
       .i2cWrite ADXL345_ADDRESS [REG_DATA_FORMAT, DATA_FORMAT_NORMAL]] :=
  selfTest_restores_normal_mode_before_failure stZeroBoard St.init
    .x 0 (-12/10) (-9/10)
    (by norm_num [M.bind, M.lift, i2cCmdWrite, i2cCmdRead, sleep,
      readAcceleration, decodeAcceleration, unpackHHH, performSelfTest,
      selfTestCheck, checkThresholds, SELF_TEST_THRESHOLDS, selfTestDelta,
      AxisSample.get, toInt16LE, toUInt16LE, ACCEL_SCALE, stZeroBoard,
      St.init])

end ADXL345
